import Mathlib

/-!
Shallow embedding of the scrollable-container widget (`ScrollView` in
`src/widget/scroll_view.rs`) of the xilem repository, together with the
surrounding data model it needs (geometry, box constraints, events,
phase contexts).

Modelling conventions:
- `f64` scalars are embedded as `ℚ`.  The only place the code constructs a
  non-finite float is `f64::INFINITY` inside box-constraint maxima
  (`ScrollView::layout` and `BoxConstraints::unbound_max_height`), so
  constraint bounds are embedded as the type `F64` below: a finite rational
  or `+∞`.  NaN and `-∞` never arise on the modelled code paths.
- The child `Pod` is abstracted by its observable behaviour: an arbitrary
  function describing the effect of `child.event` on the event context, an
  arbitrary `layout` function from constraints to sizes, an arbitrary
  intrinsic-size query, and an arbitrary accessibility-node-list
  transformer, plus the cached child size that `Pod::size()` returns.
- Context objects carry exactly the mutable state the modelled code reads
  or writes: the shared handled flag and paint-request flag for events,
  the paint-request flag for layout, the node list for accessibility.
-/

namespace Xilem

/-- Widget sizes (`vello::kurbo::Size`): width and height, embedded as
finite rationals. -/
structure Size where
  width : ℚ
  height : ℚ
deriving DecidableEq, Repr

/-- Points (`vello::kurbo::Point`): positions in the parent coordinate
space. -/
structure Point where
  x : ℚ
  y : ℚ
deriving DecidableEq, Repr

/-- Vectors (`vello::kurbo::Vec2`): offsets and deltas. -/
structure Vec2 where
  x : ℚ
  y : ℚ
deriving DecidableEq, Repr

/-- Point plus vector (kurbo's `impl Add<Vec2> for Point`), used by
`mouse_event.pos += offset`. -/
def Point.addVec (p : Point) (v : Vec2) : Point :=
  ⟨p.x + v.x, p.y + v.y⟩

/-- Values of `f64` as they occur in box-constraint bounds: a finite
rational or `+∞` (`f64::INFINITY`). -/
inductive F64 where
  | fin : ℚ → F64
  | inf : F64
deriving DecidableEq, Repr

/-- Rust `f64::min` restricted to the values of `F64` (neither argument is
NaN on the modelled paths). -/
def F64.min : F64 → F64 → F64
  | .inf, b => b
  | a, .inf => a
  | .fin a, .fin b => .fin (Min.min a b)

/-- Rust `f64::max` restricted to the values of `F64`. -/
def F64.max : F64 → F64 → F64
  | .inf, _ => .inf
  | _, .inf => .inf
  | .fin a, .fin b => .fin (Max.max a b)

/-- Rust `f64::is_sign_negative` on the values of `F64`; `ℚ` has no
negative zero, so this is just strict negativity of a finite value. -/
def F64.is_sign_negative : F64 → Bool
  | .fin q => decide (q < 0)
  | .inf => false

/-- Comparison on `F64` (every finite value is below `+∞`), as a Boolean. -/
def F64.leb : F64 → F64 → Bool
  | _, .inf => true
  | .inf, .fin _ => false
  | .fin a, .fin b => decide (a ≤ b)

/-- Rust `f64::min` where the left operand is known finite: the result is
finite (used for `child_size.width.min(bc.max().width)`). -/
def F64.minQ (a : ℚ) : F64 → ℚ
  | .inf => a
  | .fin b => Min.min a b

/-- Rust `f64::clamp(self, min, max) = self.max(min).min(max)` on finite
values (the modelled call site has `min = 0 ≤ max`, so no panic). -/
def fclamp (x lo hi : ℚ) : ℚ :=
  Min.min (Max.max x lo) hi

/-- Modelled from the spec: sizes used in `BoxConstraints`, whose
components may be `+∞` (a height maximum of `f64::INFINITY` means the
child may be arbitrarily tall). -/
structure SizeBC where
  width : F64
  height : F64
deriving DecidableEq, Repr

/-- Modelled from the spec: `BoxConstraints` (declared outside `src/`),
a pair of minimum and maximum sizes; `BoxConstraints::new(min, max)`
stores its two arguments and the accessors `min()` / `max()` return them. -/
structure BoxConstraints where
  min : SizeBC
  max : SizeBC
deriving DecidableEq, Repr

/-- Modelled from the spec: `BoxConstraints::unbound_max_height` relaxes
the height maximum to `+∞` and keeps everything else. -/
def BoxConstraints.unbound_max_height (bc : BoxConstraints) : BoxConstraints :=
  ⟨bc.min, ⟨bc.max.width, F64.inf⟩⟩

/-- Axis selected by an intrinsic-size query (`crate::Axis`). -/
inductive Axis where
  | Horizontal
  | Vertical
deriving DecidableEq, Repr

/-- Component of a constraint size along an axis (statement-side helper;
the source matches on the axis and reads `.width` or `.height`). -/
def Axis.pick : Axis → SizeBC → F64
  | .Horizontal, s => s.width
  | .Vertical, s => s.height

/-- Modelled from the spec: the wheel payload `ScrollDelta` (declared
outside `src/`): a precise pixel delta or a line-count delta. -/
inductive ScrollDelta where
  | Precise : Vec2 → ScrollDelta
  | Lines : ℚ → ℚ → ScrollDelta
deriving DecidableEq, Repr

/-- Modelled from the spec: mouse events (declared outside `src/`) carry a
position in the coordinate space of the immediate parent and, for wheel
events, an optional delta payload; other fields are irrelevant to the
modelled code. -/
structure MouseEvent where
  pos : Point
  wheel_delta : Option ScrollDelta
deriving DecidableEq, Repr

/-- Modelled from the spec: the event variants
{MouseDown, MouseUp, MouseMove, MouseWheel, MouseLeft,
TargetedAccessibilityAction}. -/
inductive Event where
  | MouseDown : MouseEvent → Event
  | MouseUp : MouseEvent → Event
  | MouseMove : MouseEvent → Event
  | MouseWheel : MouseEvent → Event
  | MouseLeft : Event
  | TargetedAccessibilityAction : ℕ → Event
deriving DecidableEq, Repr

/-- Modelled from the spec: the mutable state of `EventCx` that the
modelled code reads or writes — the shared handled flag
(`is_handled` / `set_handled`) and the accumulated paint request
(`request_paint`).  The ambient own size (`cx.size()`) is immutable during
one event traversal and passed separately. -/
structure EventCx where
  handled : Bool
  paintRequested : Bool
deriving DecidableEq, Repr

/-- Modelled from the spec: the mutable state of `LayoutCx` the modelled
code touches — the accumulated paint request. -/
structure LayoutCx where
  paintRequested : Bool
deriving DecidableEq, Repr

/-- Accessibility roles; the modelled code only constructs
`GenericContainer`, `other` stands for every role a child subtree may
emit. -/
inductive Role where
  | GenericContainer
  | other : ℕ → Role
deriving DecidableEq, Repr

/-- Modelled from the spec: an accessibility node as exported — a role and
the list of child identifiers (`accesskit::NodeBuilder` with
`set_children`). -/
structure NodeBuilder where
  role : Role
  children : List ℕ
deriving DecidableEq, Repr

/-- The state of a `ScrollView` that the modelled operations read and
write: the scroll `offset` and the child `Pod`'s cached size
(`self.child.size()`, set by the child's last layout). -/
structure ScrollView where
  childSize : Size
  offset : ℚ
deriving DecidableEq, Repr

/-- The scroll-line height constant `LINE_HEIGHT` of
`src/widget/scroll_view.rs`. -/
def LINE_HEIGHT : ℚ := 53

/-- The copy of the event that `ScrollView::event` forwards to the child:
mouse variants get their position shifted by `Vec2::new(0.0, offset)`,
every other variant is forwarded unchanged. -/
def childEventOf (offset : ℚ) (event : Event) : Event :=
  match event with
  | .MouseDown m => .MouseDown { m with pos := m.pos.addVec ⟨0, offset⟩ }
  | .MouseUp m => .MouseUp { m with pos := m.pos.addVec ⟨0, offset⟩ }
  | .MouseMove m => .MouseMove { m with pos := m.pos.addVec ⟨0, offset⟩ }
  | .MouseWheel m => .MouseWheel { m with pos := m.pos.addVec ⟨0, offset⟩ }
  | _ => event

/-- The `y_delta` computation of `ScrollView::event`: negated precise
pixel y-delta, negated line count scaled by `LINE_HEIGHT`, or `0` for an
absent payload. -/
def wheelYDelta : Option ScrollDelta → ℚ
  | some (.Precise v) => -v.y
  | some (.Lines _ y) => -y * LINE_HEIGHT
  | none => 0

/-- `ScrollView::event`.  `childEv` is the observable behaviour of
`self.child.event` on the event context; `ownSize` is `cx.size()`.
Returns the new widget state and the event context after the call. -/
def ScrollView.event (childEv : Event → EventCx → EventCx) (ownSize : Size)
    (self : ScrollView) (cx : EventCx) (event : Event) :
    ScrollView × EventCx :=
  let child_event := childEventOf self.offset event
  let cx1 := childEv child_event cx
  if cx1.handled then
    (self, cx1)
  else
    match event with
    | .MouseWheel mouse_event =>
      let max_offset := Max.max (self.childSize.height - ownSize.height) 0
      let y_delta := wheelYDelta mouse_event.wheel_delta
      let new_offset := fclamp (self.offset + y_delta) 0 max_offset
      if new_offset = self.offset then
        (self, cx1)
      else
        ({ self with offset := new_offset },
         { cx1 with handled := true, paintRequested := true })
    | _ => (self, cx1)

/-- The relaxed constraint box `cbc` that `ScrollView::layout` passes to
the child: minimum `(0, 0)`, maximum width the incoming maximum width,
maximum height `f64::INFINITY`. -/
def childConstraints (bc : BoxConstraints) : BoxConstraints :=
  ⟨⟨F64.fin 0, F64.fin 0⟩, ⟨bc.max.width, F64.inf⟩⟩

/-- `ScrollView::layout`.  `childLayout` is the observable behaviour of
`self.child.layout` (the child's size under given constraints; the `Pod`
caches it, which the model records in `childSize`).  Returns the new
widget state, the layout context after the call, and the reported size. -/
def ScrollView.layout (childLayout : BoxConstraints → Size)
    (self : ScrollView) (cx : LayoutCx) (bc : BoxConstraints) :
    ScrollView × LayoutCx × Size :=
  let cx1 := { cx with paintRequested := true }
  let cbc := childConstraints bc
  let child_size := childLayout cbc
  let size : Size :=
    ⟨F64.minQ child_size.width bc.max.width,
     F64.minQ child_size.height bc.max.height⟩
  let max_offset := Max.max (child_size.height - size.height) 0
  let self1 := { self with childSize := child_size }
  if max_offset < self1.offset then
    ({ self1 with offset := max_offset }, cx1, size)
  else
    (self1, cx1, size)

/-- `ScrollView::compute_max_intrinsic`.  `childIntrinsic` is the
observable behaviour of `self.child.compute_max_intrinsic`. -/
def ScrollView.compute_max_intrinsic
    (childIntrinsic : Axis → BoxConstraints → F64)
    (axis : Axis) (bc : BoxConstraints) : F64 :=
  match axis with
  | .Horizontal =>
    if bc.min.width.is_sign_negative then
      F64.fin 0
    else
      ((childIntrinsic Axis.Horizontal bc.unbound_max_height).min
          bc.max.width).max bc.min.width
  | .Vertical =>
    if bc.min.height.is_sign_negative then
      F64.fin 0
    else
      ((childIntrinsic Axis.Vertical bc.unbound_max_height).min
          bc.max.height).max bc.min.height

/-- `ScrollView::accessibility`.  `childAccess` is the observable
behaviour of `self.child.accessibility` on the accumulated node list;
`child_id` is `self.child.id()`; `requested` is `cx.is_requested()` for
this node.  First delegates to the child, then, if this node was
requested, pushes one generic-container node whose children are exactly
the child's identifier. -/
def ScrollView.accessibility (childAccess : List NodeBuilder → List NodeBuilder)
    (child_id : ℕ) (requested : Bool) (nodes : List NodeBuilder) :
    List NodeBuilder :=
  let nodes1 := childAccess nodes
  if requested then
    nodes1 ++ [⟨Role.GenericContainer, [child_id]⟩]
  else
    nodes1

end Xilem

namespace Xilem

/-! Concrete sample values shared by the witnesses. -/

/-- A child that leaves the event context unchanged (does not handle). -/
def evId : Event → EventCx → EventCx := fun _ cx => cx

/-- A child that marks every event handled. -/
def evHandled : Event → EventCx → EventCx := fun _ cx => { cx with handled := true }

/-- An event context with nothing handled and no paint requested. -/
def cx0 : EventCx := ⟨false, false⟩

/-- A 100 × 200 own size. -/
def ownSize200 : Size := ⟨100, 200⟩

/-- A scroll view whose child measured 100 × 500, offset 0. -/
def sv500 : ScrollView := ⟨⟨100, 500⟩, 0⟩

/-- A precise wheel event with pixel delta y = −120 (scroll down). -/
def wheelDown120 : MouseEvent := ⟨⟨10, 40⟩, some (ScrollDelta.Precise ⟨0, -120⟩)⟩

/-- A line wheel event with line delta y = +1 (scroll up). -/
def wheelUp1 : MouseEvent := ⟨⟨10, 40⟩, some (ScrollDelta.Lines 0 1)⟩

/-- C1: for every MouseWheel event that the child did not mark handled,
`ScrollView::event` sets the new offset to
clamp(offset + y_delta, 0, max(0, child_height − own_height)), where
y_delta is the negated precise pixel y-delta for a precise payload, or the
negated line count times 53 for a line-count payload; if the offset
changed it commits it, marks the event handled, and requests a repaint. -/
theorem scroll_wheel_clamps_offset
    (childEv : Event → EventCx → EventCx) (ownSize : Size)
    (sv : ScrollView) (cx : EventCx) (m : MouseEvent)
    (hc : (childEv (childEventOf sv.offset (Event.MouseWheel m)) cx).handled = false) :
    (ScrollView.event childEv ownSize sv cx (Event.MouseWheel m)).1.offset
        = fclamp (sv.offset + wheelYDelta m.wheel_delta) 0
            (Max.max (sv.childSize.height - ownSize.height) 0) ∧
      (fclamp (sv.offset + wheelYDelta m.wheel_delta) 0
            (Max.max (sv.childSize.height - ownSize.height) 0) ≠ sv.offset →
        (ScrollView.event childEv ownSize sv cx (Event.MouseWheel m)).2.handled = true ∧
        (ScrollView.event childEv ownSize sv cx (Event.MouseWheel m)).2.paintRequested
            = true) ∧
      (∀ v, m.wheel_delta = some (ScrollDelta.Precise v) →
        wheelYDelta m.wheel_delta = -v.y) ∧
      (∀ x y, m.wheel_delta = some (ScrollDelta.Lines x y) →
        wheelYDelta m.wheel_delta = -y * 53) := by
  have hstep : ScrollView.event childEv ownSize sv cx (Event.MouseWheel m)
      = (if fclamp (sv.offset + wheelYDelta m.wheel_delta) 0
              (Max.max (sv.childSize.height - ownSize.height) 0) = sv.offset then
          (sv, childEv (childEventOf sv.offset (Event.MouseWheel m)) cx)
        else
          ((⟨sv.childSize,
              fclamp (sv.offset + wheelYDelta m.wheel_delta) 0
                (Max.max (sv.childSize.height - ownSize.height) 0)⟩ : ScrollView),
            (⟨true, true⟩ : EventCx))) := by
    simp [ScrollView.event, hc]
  refine ⟨?_, ?_, ?_, ?_⟩
  · rw [hstep]
    split
    · next h => exact h.symm
    · rfl
  · intro hne
    rw [hstep, if_neg hne]
    exact ⟨rfl, rfl⟩
  · intro v hv
    simp [wheelYDelta, hv]
  · intro x y hv
    simp [wheelYDelta, hv, LINE_HEIGHT]

/-- Witness for C1 at a concrete input: child height 500, own height 200,
offset 0, precise wheel delta y = −120; the clamped offset is 120 ≠ 0. -/
theorem scroll_wheel_clamps_offset_witness :
    (evId (childEventOf sv500.offset (Event.MouseWheel wheelDown120)) cx0).handled
        = false ∧
      ((ScrollView.event evId ownSize200 sv500 cx0 (Event.MouseWheel wheelDown120)).1.offset
          = fclamp (sv500.offset + wheelYDelta wheelDown120.wheel_delta) 0
              (Max.max (sv500.childSize.height - ownSize200.height) 0) ∧
        (fclamp (sv500.offset + wheelYDelta wheelDown120.wheel_delta) 0
              (Max.max (sv500.childSize.height - ownSize200.height) 0) ≠ sv500.offset →
          (ScrollView.event evId ownSize200 sv500 cx0
                (Event.MouseWheel wheelDown120)).2.handled = true ∧
          (ScrollView.event evId ownSize200 sv500 cx0
                (Event.MouseWheel wheelDown120)).2.paintRequested = true) ∧
        (∀ v, wheelDown120.wheel_delta = some (ScrollDelta.Precise v) →
          wheelYDelta wheelDown120.wheel_delta = -v.y) ∧
        (∀ x y, wheelDown120.wheel_delta = some (ScrollDelta.Lines x y) →
          wheelYDelta wheelDown120.wheel_delta = -y * 53)) :=
  ⟨rfl, scroll_wheel_clamps_offset evId ownSize200 sv500 cx0 wheelDown120 rfl⟩

end Xilem

namespace Xilem

/-- C2: after every call to `ScrollView::layout`, the invariant
0 ≤ offset ≤ max(0, child_height − reported_height) holds: if the offset
exceeds the new maximum (for example because the child shrank), layout
silently re-clamps it to that maximum.  The hypothesis `0 ≤ offset` is the
reachable-state half of the invariant (offset starts at 0 and every
mutation clamps from below at 0). -/
theorem layout_reclamps_offset
    (childLayout : BoxConstraints → Size) (sv : ScrollView) (cx : LayoutCx)
    (bc : BoxConstraints) (h0 : 0 ≤ sv.offset) :
    0 ≤ (ScrollView.layout childLayout sv cx bc).1.offset ∧
      (ScrollView.layout childLayout sv cx bc).1.offset
        ≤ Max.max 0 ((ScrollView.layout childLayout sv cx bc).1.childSize.height
            - (ScrollView.layout childLayout sv cx bc).2.2.height) := by
  simp only [ScrollView.layout]
  split
  · next h =>
    refine ⟨le_max_right _ _, ?_⟩
    exact le_of_eq (max_comm _ _)
  · next h =>
    push_neg at h
    exact ⟨h0, le_trans h (le_of_eq (max_comm _ _))⟩

/-- Witness for C2 at a concrete input: offset 120, child shrinks to
height 150 under a 100 × 200 constraint box, so the offset is re-clamped
to 0. -/
theorem layout_reclamps_offset_witness :
    (0 : ℚ) ≤ (ScrollView.mk ⟨100, 500⟩ 120).offset ∧
      (0 ≤ (ScrollView.layout (fun _ => ⟨50, 150⟩) (ScrollView.mk ⟨100, 500⟩ 120)
            ⟨false⟩ ⟨⟨F64.fin 0, F64.fin 0⟩, ⟨F64.fin 100, F64.fin 200⟩⟩).1.offset ∧
        (ScrollView.layout (fun _ => ⟨50, 150⟩) (ScrollView.mk ⟨100, 500⟩ 120)
            ⟨false⟩ ⟨⟨F64.fin 0, F64.fin 0⟩, ⟨F64.fin 100, F64.fin 200⟩⟩).1.offset
          ≤ Max.max 0
              ((ScrollView.layout (fun _ => ⟨50, 150⟩) (ScrollView.mk ⟨100, 500⟩ 120)
                  ⟨false⟩ ⟨⟨F64.fin 0, F64.fin 0⟩, ⟨F64.fin 100, F64.fin 200⟩⟩).1.childSize.height
                - (ScrollView.layout (fun _ => ⟨50, 150⟩) (ScrollView.mk ⟨100, 500⟩ 120)
                    ⟨false⟩ ⟨⟨F64.fin 0, F64.fin 0⟩,
                      ⟨F64.fin 100, F64.fin 200⟩⟩).2.2.height)) :=
  ⟨by norm_num,
    layout_reclamps_offset (fun _ => ⟨50, 150⟩) (ScrollView.mk ⟨100, 500⟩ 120)
      ⟨false⟩ ⟨⟨F64.fin 0, F64.fin 0⟩, ⟨F64.fin 100, F64.fin 200⟩⟩ (by norm_num)⟩

/-- C3: mouse-position-bearing events (MouseDown, MouseUp, MouseMove,
MouseWheel) are forwarded to the child with the position shifted by the
vector (0, offset) — e.g. MouseDown at (10, 40) with offset 15 arrives at
(10, 55) — while every other variant is forwarded unchanged; the child is
invoked on exactly this translated copy (two child behaviours agreeing on
it produce identical results). -/
theorem event_forwards_translated_copy
    (off : ℚ) (m : MouseEvent) (n : ℕ)
    (f g : Event → EventCx → EventCx) (ownSize : Size) (sv : ScrollView)
    (cx : EventCx) (ev : Event)
    (hfg : f (childEventOf sv.offset ev) cx = g (childEventOf sv.offset ev) cx) :
    childEventOf off (Event.MouseDown m)
        = Event.MouseDown ⟨⟨m.pos.x, m.pos.y + off⟩, m.wheel_delta⟩ ∧
      childEventOf off (Event.MouseUp m)
        = Event.MouseUp ⟨⟨m.pos.x, m.pos.y + off⟩, m.wheel_delta⟩ ∧
      childEventOf off (Event.MouseMove m)
        = Event.MouseMove ⟨⟨m.pos.x, m.pos.y + off⟩, m.wheel_delta⟩ ∧
      childEventOf off (Event.MouseWheel m)
        = Event.MouseWheel ⟨⟨m.pos.x, m.pos.y + off⟩, m.wheel_delta⟩ ∧
      childEventOf off Event.MouseLeft = Event.MouseLeft ∧
      childEventOf off (Event.TargetedAccessibilityAction n)
        = Event.TargetedAccessibilityAction n ∧
      childEventOf 15 (Event.MouseDown ⟨⟨10, 40⟩, none⟩)
        = Event.MouseDown ⟨⟨10, 55⟩, none⟩ ∧
      ScrollView.event f ownSize sv cx ev = ScrollView.event g ownSize sv cx ev := by
  refine ⟨?_, ?_, ?_, ?_, rfl, rfl, ?_, ?_⟩
  · simp [childEventOf, Point.addVec]
  · simp [childEventOf, Point.addVec]
  · simp [childEventOf, Point.addVec]
  · simp [childEventOf, Point.addVec]
  · simp [childEventOf, Point.addVec]
    norm_num
  · simp only [ScrollView.event, hfg]

/-- Witness for C3 at a concrete input: the agreeing child behaviours are
both the identity, at a MouseLeft event on the sample scroll view. -/
theorem event_forwards_translated_copy_witness :
    evId (childEventOf sv500.offset Event.MouseLeft) cx0
        = evId (childEventOf sv500.offset Event.MouseLeft) cx0 ∧
      (childEventOf 15 (Event.MouseDown wheelDown120)
          = Event.MouseDown ⟨⟨wheelDown120.pos.x, wheelDown120.pos.y + 15⟩,
              wheelDown120.wheel_delta⟩ ∧
        childEventOf 15 (Event.MouseUp wheelDown120)
          = Event.MouseUp ⟨⟨wheelDown120.pos.x, wheelDown120.pos.y + 15⟩,
              wheelDown120.wheel_delta⟩ ∧
        childEventOf 15 (Event.MouseMove wheelDown120)
          = Event.MouseMove ⟨⟨wheelDown120.pos.x, wheelDown120.pos.y + 15⟩,
              wheelDown120.wheel_delta⟩ ∧
        childEventOf 15 (Event.MouseWheel wheelDown120)
          = Event.MouseWheel ⟨⟨wheelDown120.pos.x, wheelDown120.pos.y + 15⟩,
              wheelDown120.wheel_delta⟩ ∧
        childEventOf 15 Event.MouseLeft = Event.MouseLeft ∧
        childEventOf 15 (Event.TargetedAccessibilityAction 0)
          = Event.TargetedAccessibilityAction 0 ∧
        childEventOf 15 (Event.MouseDown ⟨⟨10, 40⟩, none⟩)
          = Event.MouseDown ⟨⟨10, 55⟩, none⟩ ∧
        ScrollView.event evId ownSize200 sv500 cx0 Event.MouseLeft
          = ScrollView.event evId ownSize200 sv500 cx0 Event.MouseLeft) :=
  ⟨rfl, event_forwards_translated_copy 15 wheelDown120 0 evId evId ownSize200 sv500
    cx0 Event.MouseLeft rfl⟩

/-- C4: when an unhandled MouseWheel event produces a clamped offset equal
to the current one (already at a scroll limit), `ScrollView::event`
returns the state and context exactly as the child left them: offset
unchanged, handled flag still false, no extra repaint request. -/
theorem wheel_at_limit_left_unhandled
    (childEv : Event → EventCx → EventCx) (ownSize : Size) (sv : ScrollView)
    (cx : EventCx) (m : MouseEvent)
    (hc : (childEv (childEventOf sv.offset (Event.MouseWheel m)) cx).handled = false)
    (hlim : fclamp (sv.offset + wheelYDelta m.wheel_delta) 0
        (Max.max (sv.childSize.height - ownSize.height) 0) = sv.offset) :
    ScrollView.event childEv ownSize sv cx (Event.MouseWheel m)
      = (sv, childEv (childEventOf sv.offset (Event.MouseWheel m)) cx) := by
  simp [ScrollView.event, hc, hlim]

/-- Witness for C4 at a concrete input: offset 0 and a +1 line wheel
(scroll-up intent, y_delta = −53) stays clamped at 0, so the event stays
unhandled. -/
theorem wheel_at_limit_left_unhandled_witness :
    ((evId (childEventOf sv500.offset (Event.MouseWheel wheelUp1)) cx0).handled
          = false ∧
        fclamp (sv500.offset + wheelYDelta wheelUp1.wheel_delta) 0
            (Max.max (sv500.childSize.height - ownSize200.height) 0)
          = sv500.offset) ∧
      ScrollView.event evId ownSize200 sv500 cx0 (Event.MouseWheel wheelUp1)
        = (sv500, evId (childEventOf sv500.offset (Event.MouseWheel wheelUp1)) cx0) :=
  ⟨⟨rfl, by norm_num [fclamp, wheelYDelta, LINE_HEIGHT, sv500, wheelUp1, ownSize200]⟩,
    wheel_at_limit_left_unhandled evId ownSize200 sv500 cx0 wheelUp1 rfl
      (by norm_num [fclamp, wheelYDelta, LINE_HEIGHT, sv500, wheelUp1, ownSize200])⟩

end Xilem

namespace Xilem

/-- The finite value `F64.minQ a b` is below `b`. -/
theorem F64.leb_fin_minQ (a : ℚ) (b : F64) :
    F64.leb (F64.fin (F64.minQ a b)) b = true := by
  cases b with
  | inf => simp [F64.leb]
  | fin q => simp [F64.minQ, F64.leb, min_le_right]

/-- The right operand is below an `F64.max`. -/
theorem F64.leb_max_right (a b : F64) : F64.leb b (a.max b) = true := by
  cases a <;> cases b <;> simp [F64.max, F64.leb, le_max_right]

/-- Clamping `L` into `[m, M]` (as the source writes it,
`L.min(M).max(m)`) stays below `M` whenever `m ≤ M`. -/
theorem F64.leb_max_min (L M m : F64) (h : F64.leb m M = true) :
    F64.leb ((L.min M).max m) M = true := by
  cases L <;> cases M <;> cases m <;>
    simp_all [F64.min, F64.max, F64.leb]

/-- C5: `ScrollView::layout` always requests a repaint, lays out the child
with constraints of minimum (0,0), maximum width the incoming maximum
width and maximum height +∞, and reports the child size capped
componentwise at the incoming maximum (never raised to the incoming
minimum). -/
theorem layout_relaxed_constraints_and_cap
    (childLayout : BoxConstraints → Size) (sv : ScrollView) (cx : LayoutCx)
    (bc : BoxConstraints) :
    (ScrollView.layout childLayout sv cx bc).2.1.paintRequested = true ∧
      childConstraints bc
        = ⟨⟨F64.fin 0, F64.fin 0⟩, ⟨bc.max.width, F64.inf⟩⟩ ∧
      (ScrollView.layout childLayout sv cx bc).2.2
        = ⟨F64.minQ (childLayout (childConstraints bc)).width bc.max.width,
            F64.minQ (childLayout (childConstraints bc)).height bc.max.height⟩ ∧
      F64.leb (F64.fin (ScrollView.layout childLayout sv cx bc).2.2.width)
          bc.max.width = true ∧
      F64.leb (F64.fin (ScrollView.layout childLayout sv cx bc).2.2.height)
          bc.max.height = true := by
  refine ⟨?_, rfl, ?_, ?_, ?_⟩
  · simp only [ScrollView.layout]
    split <;> rfl
  · simp only [ScrollView.layout]
    split <;> rfl
  · simp only [ScrollView.layout]
    split <;> exact F64.leb_fin_minQ _ _
  · simp only [ScrollView.layout]
    split <;> exact F64.leb_fin_minQ _ _

/-- C6: a wheel event that the child marks handled does not mutate the
scroll offset (the container state is returned untouched). -/
theorem child_handled_wheel_keeps_offset
    (childEv : Event → EventCx → EventCx) (ownSize : Size) (sv : ScrollView)
    (cx : EventCx) (m : MouseEvent)
    (hc : (childEv (childEventOf sv.offset (Event.MouseWheel m)) cx).handled = true) :
    (ScrollView.event childEv ownSize sv cx (Event.MouseWheel m)).1.offset
      = sv.offset := by
  simp [ScrollView.event, hc]

/-- Witness for C6 at a concrete input: a child that marks everything
handled, on the sample scroll view with a −120 precise wheel delta. -/
theorem child_handled_wheel_keeps_offset_witness :
    (evHandled (childEventOf sv500.offset (Event.MouseWheel wheelDown120)) cx0).handled
        = true ∧
      (ScrollView.event evHandled ownSize200 sv500 cx0
          (Event.MouseWheel wheelDown120)).1.offset = sv500.offset :=
  ⟨rfl, child_handled_wheel_keeps_offset evHandled ownSize200 sv500 cx0
    wheelDown120 rfl⟩

/-- C7: `ScrollView::compute_max_intrinsic` returns 0 when the incoming
minimum for the queried axis is negative; otherwise it returns the
child's intrinsic size along the same axis, queried with height-unbounded
constraints (for the horizontal axis too), clamped into `[min, max]` of
the incoming constraints for that axis. -/
theorem compute_max_intrinsic_clamps
    (childIntrinsic : Axis → BoxConstraints → F64) (axis : Axis)
    (bc : BoxConstraints)
    (hle : F64.leb (Axis.pick axis bc.min) (Axis.pick axis bc.max) = true) :
    ScrollView.compute_max_intrinsic childIntrinsic axis bc
        = (if (Axis.pick axis bc.min).is_sign_negative then F64.fin 0
           else ((childIntrinsic axis bc.unbound_max_height).min
              (Axis.pick axis bc.max)).max (Axis.pick axis bc.min)) ∧
      ((Axis.pick axis bc.min).is_sign_negative = false →
        F64.leb (Axis.pick axis bc.min)
            (ScrollView.compute_max_intrinsic childIntrinsic axis bc) = true ∧
          F64.leb (ScrollView.compute_max_intrinsic childIntrinsic axis bc)
            (Axis.pick axis bc.max) = true) := by
  refine ⟨?_, ?_⟩
  · cases axis <;> rfl
  · intro hneg
    cases axis <;>
      simp only [ScrollView.compute_max_intrinsic, Axis.pick] at hneg ⊢ <;>
      rw [hneg] <;>
      simp only [Bool.false_eq_true, if_false] <;>
      exact ⟨F64.leb_max_right _ _, F64.leb_max_min _ _ _ hle⟩

/-- Witness for C7 at a concrete input: horizontal axis, minimum 10,
maximum 50, child intrinsic width 70, so the clamped result is 50. -/
theorem compute_max_intrinsic_clamps_witness :
    F64.leb (Axis.pick Axis.Horizontal
          (BoxConstraints.mk ⟨F64.fin 10, F64.fin 10⟩ ⟨F64.fin 50, F64.fin 200⟩).min)
        (Axis.pick Axis.Horizontal
          (BoxConstraints.mk ⟨F64.fin 10, F64.fin 10⟩ ⟨F64.fin 50, F64.fin 200⟩).max)
        = true ∧
      (ScrollView.compute_max_intrinsic (fun _ _ => F64.fin 70) Axis.Horizontal
            (BoxConstraints.mk ⟨F64.fin 10, F64.fin 10⟩ ⟨F64.fin 50, F64.fin 200⟩)
          = (if (Axis.pick Axis.Horizontal
                  (BoxConstraints.mk ⟨F64.fin 10, F64.fin 10⟩
                    ⟨F64.fin 50, F64.fin 200⟩).min).is_sign_negative then F64.fin 0
             else (((fun (_ : Axis) (_ : BoxConstraints) => F64.fin 70) Axis.Horizontal
                  (BoxConstraints.mk ⟨F64.fin 10, F64.fin 10⟩
                    ⟨F64.fin 50, F64.fin 200⟩).unbound_max_height).min
                (Axis.pick Axis.Horizontal
                  (BoxConstraints.mk ⟨F64.fin 10, F64.fin 10⟩
                    ⟨F64.fin 50, F64.fin 200⟩).max)).max
                (Axis.pick Axis.Horizontal
                  (BoxConstraints.mk ⟨F64.fin 10, F64.fin 10⟩
                    ⟨F64.fin 50, F64.fin 200⟩).min)) ∧
        ((Axis.pick Axis.Horizontal
              (BoxConstraints.mk ⟨F64.fin 10, F64.fin 10⟩
                ⟨F64.fin 50, F64.fin 200⟩).min).is_sign_negative = false →
          F64.leb (Axis.pick Axis.Horizontal
                (BoxConstraints.mk ⟨F64.fin 10, F64.fin 10⟩
                  ⟨F64.fin 50, F64.fin 200⟩).min)
              (ScrollView.compute_max_intrinsic (fun _ _ => F64.fin 70) Axis.Horizontal
                (BoxConstraints.mk ⟨F64.fin 10, F64.fin 10⟩ ⟨F64.fin 50, F64.fin 200⟩))
              = true ∧
            F64.leb (ScrollView.compute_max_intrinsic (fun _ _ => F64.fin 70)
                Axis.Horizontal
                (BoxConstraints.mk ⟨F64.fin 10, F64.fin 10⟩ ⟨F64.fin 50, F64.fin 200⟩))
              (Axis.pick Axis.Horizontal
                (BoxConstraints.mk ⟨F64.fin 10, F64.fin 10⟩
                  ⟨F64.fin 50, F64.fin 200⟩).max) = true)) :=
  ⟨by decide, compute_max_intrinsic_clamps (fun _ _ => F64.fin 70) Axis.Horizontal
    (BoxConstraints.mk ⟨F64.fin 10, F64.fin 10⟩ ⟨F64.fin 50, F64.fin 200⟩) (by decide)⟩

end Xilem

namespace Xilem

/-- C8: calling `ScrollView::layout` twice in succession with identical
constraints and no intervening state change yields the same reported size
and the same offset (the child's layout, being a function of the
constraints, is deterministic by construction). -/
theorem layout_idempotent
    (childLayout : BoxConstraints → Size) (sv : ScrollView) (cx : LayoutCx)
    (bc : BoxConstraints) :
    (ScrollView.layout childLayout (ScrollView.layout childLayout sv cx bc).1
          (ScrollView.layout childLayout sv cx bc).2.1 bc).2.2
        = (ScrollView.layout childLayout sv cx bc).2.2 ∧
      (ScrollView.layout childLayout (ScrollView.layout childLayout sv cx bc).1
          (ScrollView.layout childLayout sv cx bc).2.1 bc).1.offset
        = (ScrollView.layout childLayout sv cx bc).1.offset := by
  by_cases h : Max.max ((childLayout (childConstraints bc)).height
      - F64.minQ (childLayout (childConstraints bc)).height bc.max.height) 0
      < sv.offset
  · simp [ScrollView.layout, h, lt_irrefl]
  · simp [ScrollView.layout, h]

/-- C9: `ScrollView::accessibility` delegates to the child first and
pushes exactly one generic-container node whose only structural content
is the child's identifier if and only if this node was requested; when
only the child is requested, zero container nodes are added and exactly
the child's subtree is produced. -/
theorem accessibility_container_node
    (childAccess : List NodeBuilder → List NodeBuilder) (child_id : ℕ)
    (nodes : List NodeBuilder) :
    ScrollView.accessibility childAccess child_id true nodes
        = childAccess nodes ++ [⟨Role.GenericContainer, [child_id]⟩] ∧
      ScrollView.accessibility childAccess child_id false nodes
        = childAccess nodes ∧
      (ScrollView.accessibility childAccess child_id true nodes).length
        = (childAccess nodes).length + 1 ∧
      (ScrollView.accessibility childAccess child_id false nodes).length
        = (childAccess nodes).length := by
  refine ⟨rfl, rfl, ?_, rfl⟩
  simp [ScrollView.accessibility]

/-- C10: a MouseWheel event without a wheel-delta payload that the child
did not handle computes a y-delta of 0, so (in any reachable state, where
the offset already satisfies its invariant) the offset is unchanged, the
event is left unhandled, and no repaint is requested. -/
theorem wheel_none_payload_no_op
    (childEv : Event → EventCx → EventCx) (ownSize : Size) (sv : ScrollView)
    (cx : EventCx) (m : MouseEvent)
    (hd : m.wheel_delta = none)
    (hc : (childEv (childEventOf sv.offset (Event.MouseWheel m)) cx).handled = false)
    (h0 : 0 ≤ sv.offset)
    (h1 : sv.offset ≤ Max.max (sv.childSize.height - ownSize.height) 0) :
    wheelYDelta m.wheel_delta = 0 ∧
      ScrollView.event childEv ownSize sv cx (Event.MouseWheel m)
        = (sv, childEv (childEventOf sv.offset (Event.MouseWheel m)) cx) := by
  have hy : wheelYDelta m.wheel_delta = 0 := by
    simp [wheelYDelta, hd]
  have hlim : fclamp (sv.offset + wheelYDelta m.wheel_delta) 0
      (Max.max (sv.childSize.height - ownSize.height) 0) = sv.offset := by
    rw [hy, add_zero]
    unfold fclamp
    rw [max_eq_left h0, min_eq_left h1]
  refine ⟨hy, ?_⟩
  simp [ScrollView.event, hc, hlim]

/-- Witness for C10 at a concrete input: payload-free wheel event on the
sample scroll view at offset 0 (invariant holds: 0 ≤ 0 ≤ 300). -/
theorem wheel_none_payload_no_op_witness :
    ((⟨⟨10, 40⟩, none⟩ : MouseEvent).wheel_delta = none ∧
        (evId (childEventOf sv500.offset
            (Event.MouseWheel ⟨⟨10, 40⟩, none⟩)) cx0).handled = false ∧
        (0 : ℚ) ≤ sv500.offset ∧
        sv500.offset ≤ Max.max (sv500.childSize.height - ownSize200.height) 0) ∧
      (wheelYDelta (⟨⟨10, 40⟩, none⟩ : MouseEvent).wheel_delta = 0 ∧
        ScrollView.event evId ownSize200 sv500 cx0
            (Event.MouseWheel ⟨⟨10, 40⟩, none⟩)
          = (sv500, evId (childEventOf sv500.offset
              (Event.MouseWheel ⟨⟨10, 40⟩, none⟩)) cx0)) :=
  ⟨⟨rfl, rfl, le_refl 0,
      by norm_num [sv500, ownSize200]⟩,
    wheel_none_payload_no_op evId ownSize200 sv500 cx0 ⟨⟨10, 40⟩, none⟩ rfl rfl
      (le_refl 0) (by norm_num [sv500, ownSize200])⟩

end Xilem
